import Mathlib

/-!
otelchi: tracing middleware for go-chi.

A shallow embedding of `instrumentation/github.com/go-chi/chi/otelchi`
(`config.go`, `chi.go`) and theorems about it.

The Go code talks to collaborators that live outside the package: the
OpenTelemetry tracer provider, tracer, span and propagator, the `semconv`
attribute helpers, and the downstream `http.Handler`.  They are taken as
parameters (`Sig` for their types, `Env` for their operations).  Their hidden
state is an abstract `World` that is threaded through every call, and the
calls that the middleware itself makes are recorded, in program order, in a
log of `Event`s.

Request objects live behind pointers in Go.  The handler built by `Middleware`
receives a heap of request objects and the address of the caller's object;
`Request.WithContext` allocates a fresh object.  A downstream handler is handed
the object its pointer argument refers to and gives back the final value of
that object, so it can assign the fields of the object it was given and of no
other.  The header map that a copy shares with its original in Go is held by
value, so the heap says what the context of a request object is, not what its
header map holds after a downstream handler wrote into it.
-/

namespace Otelchi

/-! ## Types of the collaborators -/

/-- Types of the values that come from outside the package. -/
structure Sig where
  /-- Hidden state of the tracing backend and of everything else a handler may touch. -/
  World : Type
  /-- Go `context.Context` (never `nil`). -/
  Context : Type
  /-- Go `trace.TracerProvider`. -/
  TracerProvider : Type
  /-- Go `otel.TextMapPropagator`. -/
  TextMapPropagator : Type
  /-- Go `trace.Tracer`. -/
  Tracer : Type
  /-- Go `trace.Span`. -/
  Span : Type
  /-- Go `label.KeyValue`. -/
  KeyValue : Type
  /-- Go `codes.Code`. -/
  Code : Type
  /-- Values a handler may pass to `panic`. -/
  PanicValue : Type

/-- Go `http.Header`. -/
abbrev Header := List (String × List String)

/-- Go `http.Response`, the fields the middleware reads. -/
structure Response where
  Status : String
  StatusCode : Int

/-- Go `http.Request`. `ctx` is what `req.Context()` returns; `Response` is
`none` for the `nil` pointer that every inbound server request carries. -/
structure Request (C : Type) where
  ctx : C
  Method : String
  RequestURI : String
  Header : Header
  Host : String
  RemoteAddr : String
  Response : Option Response

/-- Go `(*http.Request).Context`. -/
def Request.Context {C : Type} (r : Request C) : C := r.ctx

/-- Go `(*http.Request).WithContext`: a shallow copy of the request with its
context changed. The copy is a new object and the `ctx` field of the receiver
is not written. In Go the copy shares the `http.Header` map with the receiver,
so a write into that map through the copy is seen through the receiver; here
`Header` is the content of the map at the time of the copy and that sharing is
not represented, which is why the theorems speak of the context of the caller's
request and never of its header. -/
def Request.WithContext {C : Type} (r : Request C) (ctx : C) : Request C :=
  { r with ctx := ctx }

/-- Go `httptest.ResponseRecorder`, standing for the `http.ResponseWriter`. -/
structure ResponseRecorder where
  Code : Int
  wroteHeader : Bool
  Body : String

/-- Go `httptest.NewRecorder`. -/
def NewRecorder : ResponseRecorder := { Code := 200, wroteHeader := false, Body := "" }

/-- Go `(*ResponseRecorder).WriteHeader`. -/
def ResponseRecorder.WriteHeader (rw : ResponseRecorder) (code : Int) : ResponseRecorder :=
  if rw.wroteHeader then rw else { rw with Code := code, wroteHeader := true }

/-- Go `(*ResponseRecorder).Write`. -/
def ResponseRecorder.Write (rw : ResponseRecorder) (b : String) : ResponseRecorder :=
  let rw1 := rw.WriteHeader 200
  { rw1 with Body := rw1.Body ++ b }

/-- Go `trace.SpanKind`. -/
inductive SpanKind
  | SpanKindUnspecified
  | SpanKindInternal
  | SpanKindServer
  | SpanKindClient
  | SpanKindProducer
  | SpanKindConsumer
  deriving DecidableEq, Repr

/-- Go `trace.SpanOption`, the two constructors the middleware uses. -/
inductive SpanOption (KV : Type)
  | WithAttributes (attrs : List KV)
  | WithSpanKind (kind : SpanKind)

/-- What a running goroutine is unwinding with. -/
inductive Panic (V : Type)
  /-- The runtime error "invalid memory address or nil pointer dereference". -/
  | nilPointerDereference
  /-- A call `panic(v)`. -/
  | value (v : V)

/-- How a call ended. -/
inductive Outcome (V : Type)
  | returned
  | panicked (p : Panic V)

/-- Operations of the collaborators. -/
structure Env (σ : Sig) where
  /-- Go `global.TracerProvider()`. -/
  globalTracerProvider : σ.TracerProvider
  /-- Go `global.TextMapPropagator()`. -/
  globalTextMapPropagator : σ.TextMapPropagator
  /-- Go `otelcontrib.SemVersion()`. -/
  SemVersion : String
  /-- Go `TracerProvider.Tracer(name, WithInstrumentationVersion(version))`. -/
  Tracer : σ.TracerProvider → String → String → σ.Tracer
  /-- Go `TextMapPropagator.Extract(ctx, carrier)`. -/
  Extract : σ.TextMapPropagator → σ.Context → Header → σ.Context
  /-- Go `Tracer.Start(ctx, spanName, opts...)`. -/
  Start : σ.Tracer → σ.World → σ.Context → String → List (SpanOption σ.KeyValue) →
    σ.World × σ.Context × σ.Span
  /-- Go `Span.SetAttributes(attrs...)`. -/
  SetAttributes : σ.Span → List σ.KeyValue → σ.World → σ.World
  /-- Go `Span.SetStatus(code, msg)`. -/
  SetStatus : σ.Span → σ.Code → String → σ.World → σ.World
  /-- Go `Span.End()`. -/
  End : σ.Span → σ.World → σ.World
  /-- Go `semconv.NetAttributesFromHTTPRequest(network, request)`. -/
  NetAttributesFromHTTPRequest : String → Request σ.Context → List σ.KeyValue
  /-- Go `semconv.EndUserAttributesFromHTTPRequest(request)`. -/
  EndUserAttributesFromHTTPRequest : Request σ.Context → List σ.KeyValue
  /-- Go `semconv.HTTPServerAttributesFromHTTPRequest(serverName, route, request)`. -/
  HTTPServerAttributesFromHTTPRequest : String → String → Request σ.Context → List σ.KeyValue
  /-- Go `semconv.HTTPAttributesFromHTTPStatusCode(code)`. -/
  HTTPAttributesFromHTTPStatusCode : Int → List σ.KeyValue
  /-- Go `semconv.SpanStatusFromHTTPStatusCode(code)`. -/
  SpanStatusFromHTTPStatusCode : Int → σ.Code × String

/-! ## config.go -/

/-- Go `config`: a group of options for this instrumentation. -/
structure config (σ : Sig) where
  TracerProvider : σ.TracerProvider
  Propagators : σ.TextMapPropagator

/-- Go `Option`: the two implementations of the interface in the package,
`propagatorsOption` and `tracerProviderOption`. -/
inductive ConfigOption (σ : Sig)
  | propagatorsOption (p : σ.TextMapPropagator)
  | tracerProviderOption (tp : σ.TracerProvider)

/-- Go `propagatorsOption.Apply` and `tracerProviderOption.Apply`. -/
def ConfigOption.Apply {σ : Sig} : ConfigOption σ → config σ → config σ
  | .propagatorsOption p, c => { c with Propagators := p }
  | .tracerProviderOption tp, c => { c with TracerProvider := tp }

/-- Go `WithPropagators`. -/
def WithPropagators {σ : Sig} (p : σ.TextMapPropagator) : ConfigOption σ :=
  .propagatorsOption p

/-- Go `WithTracerProvider`. -/
def WithTracerProvider {σ : Sig} (tp : σ.TracerProvider) : ConfigOption σ :=
  .tracerProviderOption tp

/-- Go `newConfig`: start from the global propagator and tracer provider and
apply the options in order. -/
def newConfig {σ : Sig} (env : Env σ) (opts : List (ConfigOption σ)) : config σ :=
  opts.foldl (fun c o => o.Apply c)
    { Propagators := env.globalTextMapPropagator, TracerProvider := env.globalTracerProvider }

/-! ## strconv.Atoi -/

/-- Value of a string of decimal digits. -/
def digitsValue (cs : List Char) : Nat :=
  cs.foldl (fun n c => 10 * n + (c.toNat - 48)) 0

/-- Go `strconv.Atoi` on a 64-bit platform, the value only (the middleware
drops the error): an optional sign followed by decimal digits; `0` on a syntax
error; the nearest `int` when out of range. -/
def Atoi (s : String) : Int :=
  let signed : Bool × List Char :=
    match s.toList with
    | '-' :: t => (true, t)
    | '+' :: t => (false, t)
    | t => (false, t)
  let ds := signed.2
  if ds.isEmpty || !ds.all Char.isDigit then 0
  else
    let un := digitsValue ds
    if signed.1 then (if un > 2 ^ 63 then -(2 ^ 63 : Int) else -(un : Int))
    else (if un ≥ 2 ^ 63 then (2 ^ 63 - 1 : Int) else (un : Int))

/-! ## chi.go -/

/-- Go `instrumentationName`: the name of this instrumentation package. -/
def instrumentationName : String :=
  "go.opentelemetry.io/contrib/instrumentation/github.com/go-chi/chi/otelchi"

/-- A call made by the middleware to one of its collaborators, with the
arguments passed and the values returned. -/
inductive Event (σ : Sig)
  /-- Record of `cfg.TracerProvider.Tracer(name, WithInstrumentationVersion(version))`. -/
  | tracer (tp : σ.TracerProvider) (name version : String) (out : σ.Tracer)
  /-- Record of `cfg.Propagators.Extract(ctx, header)`. -/
  | extract (p : σ.TextMapPropagator) (ctx : σ.Context) (header : Header) (out : σ.Context)
  /-- Record of `tracer.Start(ctx, spanName, opts...)`. -/
  | start (t : σ.Tracer) (ctx : σ.Context) (spanName : String)
      (opts : List (SpanOption σ.KeyValue)) (outCtx : σ.Context) (span : σ.Span)
  /-- Record of `next.ServeHTTP(res, req)`: the pointer passed, the object it
  refers to, the response writer after the call, the final value of the object,
  and how the call ended. -/
  | serveHTTP (req : Nat) (r : Request σ.Context) (res : ResponseRecorder)
      (after : Request σ.Context) (outcome : Outcome σ.PanicValue)
  /-- Record of `span.SetAttributes(attrs...)`. -/
  | setAttributes (span : σ.Span) (attrs : List σ.KeyValue)
  /-- Record of `span.SetStatus(code, msg)`. -/
  | setStatus (span : σ.Span) (code : σ.Code) (msg : String)
  /-- Record of `span.End()`. -/
  | spanEnd (span : σ.Span)

/-- Result of running a downstream `http.Handler` on a request object: the
world and the response writer after the call, the final value of the request
object it was handed, and how the call ended. -/
structure Served (σ : Sig) where
  world : σ.World
  res : ResponseRecorder
  req : Request σ.Context
  outcome : Outcome σ.PanicValue

/-- Go `http.Handler` as the middleware sees the downstream one. -/
abbrev Handler (σ : Sig) := σ.World → ResponseRecorder → Request σ.Context → Served σ

/-- Request objects by address. -/
abbrev Heap (σ : Sig) := List (Request σ.Context)

/-- Allocation of a new request object: the heap after it and the new address. -/
def alloc {σ : Sig} (heap : Heap σ) (r : Request σ.Context) : Heap σ × Nat :=
  (heap ++ [r], heap.length)

/-- Result of one run of the handler built by `Middleware`. -/
structure Traced (σ : Sig) where
  world : σ.World
  heap : Heap σ
  res : ResponseRecorder
  /-- The calls the middleware made, in program order. -/
  log : List (Event σ)
  outcome : Outcome σ.PanicValue

/-- The span name chosen in `fn`: the request URI, or a synthetic name when it is empty. -/
def spanNameOf {C : Type} (r : Request C) : String :=
  if r.RequestURI = "" then "HTTP " ++ r.Method ++ " route not found" else r.RequestURI

/-- The span options built in `fn`. -/
def spanOptions {σ : Sig} (env : Env σ) (service : String) (r : Request σ.Context) :
    List (SpanOption σ.KeyValue) :=
  [ SpanOption.WithAttributes (env.NetAttributesFromHTTPRequest "tcp" r),
    SpanOption.WithAttributes (env.EndUserAttributesFromHTTPRequest r),
    SpanOption.WithAttributes (env.HTTPServerAttributesFromHTTPRequest service "" r),
    SpanOption.WithSpanKind SpanKind.SpanKindServer ]

/-- The statements of `fn` after `next.ServeHTTP(res, req)`, lines 66 to 70,
for a call that ended as `served`: nothing runs if the call panicked;
otherwise `req.Response.Status` is read, which dereferences `req.Response`,
and the attributes and the status derived from it are set on the span. The
result is the world afterwards, the calls made, and how the body ended. -/
def afterNext {σ : Sig} (env : Env σ) (span : σ.Span) (served : Served σ) :
    σ.World × List (Event σ) × Outcome σ.PanicValue :=
  match served.outcome with
  | Outcome.panicked p => (served.world, [], Outcome.panicked p)
  | Outcome.returned =>
    match served.req.Response with
    | none => (served.world, [], Outcome.panicked Panic.nilPointerDereference)
    | some response =>
      let status := Atoi response.Status
      let attrs := env.HTTPAttributesFromHTTPStatusCode status
      let spanStatus := env.SpanStatusFromHTTPStatusCode status
      let w2 := env.SetAttributes span attrs served.world
      let w3 := env.SetStatus span spanStatus.1 spanStatus.2 w2
      (w3, [Event.setAttributes span attrs, Event.setStatus span spanStatus.1 spanStatus.2],
        Outcome.returned)

/-- Go `fn`, the body of the handler that `Middleware` returns, with `cfg`,
`tracer`, `service` and `next` captured. `req` is the address of the caller's
request object in `heap`.

Statement by statement: `req.Context()` dereferences `req`; the propagator
extracts a context; the span options and the span name are computed from the
caller's request; `tracer.Start` gives a context and a span; `req.WithContext`
allocates the copy that is handed to `next`, whose mutations of that copy are
written back at its address; the rest of the body is `afterNext`. The two
deferred calls run on every exit, last registered first: `span.End()`, then
the closure that allocates another copy carrying `savedCtx` and assigns it to
the local variable `req`. -/
def fn {σ : Sig} (env : Env σ) (service : String) (cfg : config σ) (tracer : σ.Tracer)
    (next : Handler σ) (w : σ.World) (heap : Heap σ) (res : ResponseRecorder) (req : Nat) :
    Traced σ :=
  match heap[req]? with
  | none =>
    { world := w, heap := heap, res := res, log := [],
      outcome := Outcome.panicked Panic.nilPointerDereference }
  | some r =>
    let savedCtx := r.Context
    let ctx := env.Extract cfg.Propagators savedCtx r.Header
    let opts := spanOptions env service r
    let spanName := spanNameOf r
    let started := env.Start tracer w ctx spanName opts
    let ctx1 := started.2.1
    let span := started.2.2
    -- req = req.WithContext(ctx)
    let copied := alloc heap (r.WithContext ctx1)
    let req1 := copied.2
    -- next.ServeHTTP(res, req)
    let served := next started.1 res (r.WithContext ctx1)
    let heap1 := copied.1.set req1 served.req
    let pre : List (Event σ) :=
      [ Event.extract cfg.Propagators savedCtx r.Header ctx,
        Event.start tracer ctx spanName opts ctx1 span,
        Event.serveHTTP req1 (r.WithContext ctx1) served.res served.req served.outcome ]
    let body := afterNext env span served
    -- defer span.End()
    let w4 := env.End span body.1
    -- defer func() { req = req.WithContext(savedCtx) }()
    let restored := alloc heap1 (served.req.WithContext savedCtx)
    { world := w4, heap := restored.1, res := served.res,
      log := pre ++ body.2.1 ++ [Event.spanEnd span],
      outcome := body.2.2 }

/-- What `Middleware` gives back: the calls made while it ran, and the
function from the next handler to the traced handler. -/
structure Built (σ : Sig) where
  calls : List (Event σ)
  wrap : Handler σ → σ.World → Heap σ → ResponseRecorder → Nat → Traced σ

/-- Go `Middleware`: resolve the configuration, obtain the tracer, and return
the function that wraps a next handler. -/
def Middleware {σ : Sig} (env : Env σ) (service : String) (opts : List (ConfigOption σ)) :
    Built σ :=
  let cfg := newConfig env opts
  let tracer := env.Tracer cfg.TracerProvider instrumentationName env.SemVersion
  { calls := [Event.tracer cfg.TracerProvider instrumentationName env.SemVersion tracer],
    wrap := fun next => fn env service cfg tracer next }

/-- Sequential requests served by one handler built by `Middleware`: each
request object is allocated, the handler runs on it with a new recorder, and
the next request is served whether the run returned or panicked (the server
recovers a handler's panic). The result is the final world and heap and the
calls of all runs, in order. -/
def serveAll {σ : Sig} (h : σ.World → Heap σ → ResponseRecorder → Nat → Traced σ) :
    σ.World → Heap σ → List (Request σ.Context) → σ.World × Heap σ × List (Event σ)
  | w, heap, [] => (w, heap, [])
  | w, heap, r :: rs =>
    let a := alloc heap r
    let run := h w a.1 NewRecorder a.2
    let rest := serveAll h run.world run.heap rs
    (rest.1, rest.2.1, run.log ++ rest.2.2)

/-! ## Reading the log -/

/-- The span returned, when the event is a `tracer.Start` call. -/
def Event.started {σ : Sig} : Event σ → Option σ.Span
  | .start _ _ _ _ _ span => some span
  | _ => none

/-- The span ended, when the event is a `span.End` call. -/
def Event.ended {σ : Sig} : Event σ → Option σ.Span
  | .spanEnd span => some span
  | _ => none

/-- The name passed, when the event is a `tracer.Start` call. -/
def Event.startName {σ : Sig} : Event σ → Option String
  | .start _ _ spanName _ _ _ => some spanName
  | _ => none

/-- The tracer called, when the event is a `tracer.Start` call. -/
def Event.startTracer {σ : Sig} : Event σ → Option σ.Tracer
  | .start t _ _ _ _ _ => some t
  | _ => none

/-- Whether the event is a `TracerProvider.Tracer` call. -/
def Event.isTracer {σ : Sig} : Event σ → Bool
  | .tracer _ _ _ _ => true
  | _ => false

/-- Whether the event is a `span.SetAttributes` or a `span.SetStatus` call. -/
def Event.isSet {σ : Sig} : Event σ → Bool
  | .setAttributes _ _ => true
  | .setStatus _ _ _ => true
  | _ => false

/-- The payload of a `WithTracerProvider` option. -/
def ConfigOption.tracerProvider? {σ : Sig} : ConfigOption σ → Option σ.TracerProvider
  | .tracerProviderOption tp => some tp
  | .propagatorsOption _ => none

/-- The payload of a `WithPropagators` option. -/
def ConfigOption.propagators? {σ : Sig} : ConfigOption σ → Option σ.TextMapPropagator
  | .propagatorsOption p => some p
  | .tracerProviderOption _ => none

/-- The context passed, the context returned and the span returned, when the
event is a `tracer.Start` call. -/
def Event.startContexts {σ : Sig} : Event σ → Option (σ.Context × σ.Context × σ.Span)
  | .start _ ctx _ _ outCtx span => some (ctx, outCtx, span)
  | _ => none

/-- The propagator, the context and the carrier passed and the context
returned, when the event is a `Propagators.Extract` call. -/
def Event.extracted {σ : Sig} :
    Event σ → Option (σ.TextMapPropagator × σ.Context × Header × σ.Context)
  | .extract p ctx header out => some (p, ctx, header, out)
  | _ => none

/-- The request object handed over, when the event is a call of the downstream handler. -/
def Event.servedRequest {σ : Sig} : Event σ → Option (Request σ.Context)
  | .serveHTTP _ r _ _ _ => some r
  | _ => none

/-- How the call ended, when the event is a call of the downstream handler. -/
def Event.servedOutcome {σ : Sig} : Event σ → Option (Outcome σ.PanicValue)
  | .serveHTTP _ _ _ _ o => some o
  | _ => none

/-- The attributes passed, when the event is a `span.SetAttributes` call. -/
def Event.attributes {σ : Sig} : Event σ → Option (List σ.KeyValue)
  | .setAttributes _ attrs => some attrs
  | _ => none

/-! ## A recording backend

A concrete instance of the collaborators, in the manner of `tracetest`, on
which the model is evaluated. -/

/-- Tracer of the recording backend: the provider it came from, its name and version. -/
structure RecTracer where
  provider : Nat
  Name : String
  Version : String

/-- Span of the recording backend. -/
structure RecSpan where
  TraceID : Nat
  SpanID : Nat
  ParentSpanID : Nat
  tracer : RecTracer

/-- Context of the recording backend: the remote span context put there by a
propagator (trace ID, span ID), and the current span. -/
structure RecContext where
  remote : Option (Nat × Nat)
  current : Option RecSpan

/-- Attribute value of the recording backend. -/
inductive RecValue
  | STRING (s : String)
  | INT64 (i : Int)

/-- Types of the recording backend. The world is the number of spans started so far. -/
@[reducible] def recSig : Sig :=
  { World := Nat, Context := RecContext, TracerProvider := Nat, TextMapPropagator := String,
    Tracer := RecTracer, Span := RecSpan, KeyValue := String × RecValue, Code := Nat,
    PanicValue := String }

/-- Extraction by the recording propagator `p`: the header named `p` carries
the trace ID and the span ID of the caller, in decimal. -/
def recExtract (p : String) (ctx : RecContext) (header : Header) : RecContext :=
  match header.lookup p with
  | some [t, s] => { ctx with remote := some (digitsValue t.toList, digitsValue s.toList) }
  | _ => ctx

/-- Start of a span by the recording tracer, in the manner of the `tracetest`
tracer: a child of the span the context already holds if there is one, else of
the remote span context if there is one, else a root. The context returned is
the context given with the new span as its current span. -/
def recStart (t : RecTracer) (w : Nat) (ctx : RecContext) (_spanName : String)
    (_opts : List (SpanOption (String × RecValue))) : Nat × RecContext × RecSpan :=
  let parent : Nat × Nat :=
    match ctx.current with
    | some s => (s.TraceID, s.SpanID)
    | none =>
      match ctx.remote with
      | some p => p
      | none => (1000 + w, 0)
  let span : RecSpan :=
    { TraceID := parent.1, SpanID := w + 1, ParentSpanID := parent.2, tracer := t }
  (w + 1, { ctx with current := some span }, span)

/-- The recording backend. -/
def recEnv : Env recSig :=
  { globalTracerProvider := (0 : Nat),
    globalTextMapPropagator := "traceparent",
    SemVersion := "0.13.0",
    Tracer := fun tp name version => { provider := tp, Name := name, Version := version },
    Extract := recExtract,
    Start := recStart,
    SetAttributes := fun _ _ w => w,
    SetStatus := fun _ _ _ w => w,
    End := fun _ w => w,
    NetAttributesFromHTTPRequest := fun network r =>
      [("net.transport", RecValue.STRING network), ("net.host.name", RecValue.STRING r.Host)],
    EndUserAttributesFromHTTPRequest := fun _ => [],
    HTTPServerAttributesFromHTTPRequest := fun serverName route r =>
      [("http.method", RecValue.STRING r.Method), ("http.target", RecValue.STRING r.RequestURI),
        ("http.server_name", RecValue.STRING serverName), ("http.route", RecValue.STRING route)],
    HTTPAttributesFromHTTPStatusCode := fun code => [("http.status_code", RecValue.INT64 code)],
    SpanStatusFromHTTPStatusCode := fun code =>
      if 100 ≤ code ∧ code < 400 then (0, "") else (2, "HTTP status code error") }

/-- The request `httptest.NewRequest(method, target, nil)` builds; its
`Response` is `nil`. -/
def NewRequest (method target : String) : Request RecContext :=
  { ctx := { remote := none, current := none }, Method := method, RequestURI := target,
    Header := [], Host := "example.com", RemoteAddr := "192.0.2.1:1234", Response := none }

/-- The handler of the tests: `res.WriteHeader(http.StatusOK)`. -/
def writeOK : Handler recSig :=
  fun w res r => { world := w, res := res.WriteHeader 200, req := r, outcome := Outcome.returned }

/-- The second handler of `TestChildSpanNames`: `res.Write([]byte("ok"))`. -/
def writeBody : Handler recSig :=
  fun w res r => { world := w, res := res.Write "ok", req := r, outcome := Outcome.returned }

/-- A handler that panics with the value `v`. -/
def panicWith (v : String) : Handler recSig :=
  fun w res r =>
    { world := w, res := res, req := r, outcome := Outcome.panicked (Panic.value v) }

/-- A request as `NewRequest` builds it, with the span context of a caller
(trace ID 11, span ID 22) injected under the header of the global propagator. -/
def requestWithParent : Request RecContext :=
  { NewRequest "GET" "/user/123" with Header := [("traceparent", ["11", "22"])] }

/-- The request `requestWithParent` after a tracing middleware that ran earlier
put its own span (trace ID 5, span ID 6) in the request context. -/
def requestWithSpan : Request RecContext :=
  { requestWithParent with
    ctx := { remote := none,
             current := some { TraceID := 5, SpanID := 6, ParentSpanID := 0,
                               tracer := { provider := 0, Name := "upstream", Version := "" } } } }

/-- A request that carries a redirect response, as a client request may. -/
def requestWithResponse : Request RecContext :=
  { NewRequest "GET" "/user/123" with
    Response := some { Status := "404 Not Found", StatusCode := 404 } }

/-! ## Lemmas on one run -/

section Run
variable {σ : Sig}

/-- The body after the call makes no call, or sets the attributes and the
status derived from one status code. -/
theorem afterNext_calls (env : Env σ) (span : σ.Span) (served : Served σ) :
    (afterNext env span served).2.1 = [] ∨
      ∃ status : Int, (afterNext env span served).2.1 =
        [Event.setAttributes span (env.HTTPAttributesFromHTTPStatusCode status),
          Event.setStatus span (env.SpanStatusFromHTTPStatusCode status).1
            (env.SpanStatusFromHTTPStatusCode status).2] := by
  unfold afterNext
  split
  · exact Or.inl rfl
  · split
    · exact Or.inl rfl
    · exact Or.inr ⟨_, rfl⟩

/-- A panic of the downstream handler is what the body ends with. -/
theorem afterNext_panicked (env : Env σ) (span : σ.Span) (served : Served σ)
    (p : Panic σ.PanicValue) (h : served.outcome = Outcome.panicked p) :
    afterNext env span served = (served.world, [], Outcome.panicked p) := by
  unfold afterNext
  rw [h]

/-- One run of `fn` on a valid request pointer, spelled out. -/
theorem fn_run (env : Env σ) (service : String) (cfg : config σ) (tracer : σ.Tracer)
    (next : Handler σ) (w : σ.World) (heap : Heap σ) (res : ResponseRecorder) (req : Nat)
    (r : Request σ.Context) (h : heap[req]? = some r) :
    ∃ (ctx : σ.Context) (w1 : σ.World) (ctx1 : σ.Context) (span : σ.Span) (served : Served σ),
      ctx = env.Extract cfg.Propagators r.Context r.Header ∧
      env.Start tracer w ctx (spanNameOf r) (spanOptions env service r) = (w1, ctx1, span) ∧
      served = next w1 res (r.WithContext ctx1) ∧
      fn env service cfg tracer next w heap res req =
        { world := env.End span (afterNext env span served).1,
          heap := (heap ++ [r.WithContext ctx1]).set heap.length served.req ++
            [served.req.WithContext r.Context],
          res := served.res,
          log := [Event.extract cfg.Propagators r.Context r.Header ctx,
              Event.start tracer ctx (spanNameOf r) (spanOptions env service r) ctx1 span,
              Event.serveHTTP heap.length (r.WithContext ctx1) served.res served.req
                served.outcome] ++ (afterNext env span served).2.1 ++ [Event.spanEnd span],
          outcome := (afterNext env span served).2.2 } := by
  refine ⟨_, _, _, _, _, rfl, rfl, rfl, ?_⟩
  simp only [fn, h, alloc]

/-- The spans started and ended in one run, and the name given to the span. -/
theorem fn_spans (env : Env σ) (service : String) (cfg : config σ) (tracer : σ.Tracer)
    (next : Handler σ) (w : σ.World) (heap : Heap σ) (res : ResponseRecorder) (req : Nat)
    (r : Request σ.Context) (h : heap[req]? = some r) :
    ∃ span : σ.Span,
      (fn env service cfg tracer next w heap res req).log.filterMap Event.started = [span] ∧
      (fn env service cfg tracer next w heap res req).log.filterMap Event.ended = [span] ∧
      (fn env service cfg tracer next w heap res req).log.getLast? = some (Event.spanEnd span) ∧
      (fn env service cfg tracer next w heap res req).log.filterMap Event.startName =
        [spanNameOf r] ∧
      (fn env service cfg tracer next w heap res req).log.filterMap Event.startTracer =
        [tracer] := by
  obtain ⟨ctx, w1, ctx1, span, served, -, -, -, hrun⟩ :=
    fn_run env service cfg tracer next w heap res req r h
  refine ⟨span, ?_⟩
  rw [hrun]
  rcases afterNext_calls env span served with hmid | ⟨status, hmid⟩ <;>
    simp [hmid, Event.started, Event.ended, Event.startName, Event.startTracer]

/-- A run extends the heap and leaves the context of the request objects that
were there as it was. -/
theorem fn_heap (env : Env σ) (service : String) (cfg : config σ) (tracer : σ.Tracer)
    (next : Handler σ) (w : σ.World) (heap : Heap σ) (res : ResponseRecorder) (req : Nat)
    (r : Request σ.Context) (h : heap[req]? = some r) (p : Nat) (hp : p < heap.length) :
    ((fn env service cfg tracer next w heap res req).heap[p]?).map Request.Context =
      (heap[p]?).map Request.Context := by
  obtain ⟨ctx, w1, ctx1, span, served, -, -, -, hrun⟩ :=
    fn_run env service cfg tracer next w heap res req r h
  rw [hrun]
  have hne : heap.length ≠ p := Nat.ne_of_gt hp
  have hlen : p < ((heap ++ [r.WithContext ctx1]).set heap.length served.req).length := by
    simp; omega
  simp only []
  rw [List.getElem?_append_left hlen, List.getElem?_set_ne hne,
    List.getElem?_append_left hp]

end Run

/-! ## Lemmas on the configuration and on sequences of runs -/

section Seq
variable {σ : Sig}

/-- Options applied after a list of options act on the configuration the list gave. -/
theorem newConfig_concat (env : Env σ) (opts : List (ConfigOption σ)) (o : ConfigOption σ) :
    newConfig env (opts ++ [o]) = o.Apply (newConfig env opts) := by
  simp [newConfig, List.foldl_append]

/-- Spans and names over sequential requests. -/
theorem serveAll_spans (env : Env σ) (service : String) (cfg : config σ) (tracer : σ.Tracer)
    (next : Handler σ) (reqs : List (Request σ.Context)) :
    ∀ (w : σ.World) (heap : Heap σ),
      (serveAll (fn env service cfg tracer next) w heap reqs).2.2.filterMap Event.ended =
        (serveAll (fn env service cfg tracer next) w heap reqs).2.2.filterMap Event.started ∧
      ((serveAll (fn env service cfg tracer next) w heap reqs).2.2.filterMap
        Event.ended).length = reqs.length ∧
      (serveAll (fn env service cfg tracer next) w heap reqs).2.2.filterMap Event.startName =
        reqs.map spanNameOf := by
  induction reqs with
  | nil => intro w heap; simp [serveAll]
  | cons r rs ih =>
    intro w heap
    have hv : (heap ++ [r])[heap.length]? = some r := List.getElem?_concat_length heap r
    obtain ⟨span, hs, he, -, hn, -⟩ :=
      fn_spans env service cfg tracer next w (heap ++ [r]) NewRecorder heap.length r hv
    obtain ⟨ih1, ih2, ih3⟩ := ih
      (fn env service cfg tracer next w (heap ++ [r]) NewRecorder heap.length).world
      (fn env service cfg tracer next w (heap ++ [r]) NewRecorder heap.length).heap
    simp only [serveAll, alloc, List.filterMap_append, hs, he, hn, ih1, ih2, ih3,
      List.map_cons, List.length_append, List.length_cons, List.length_nil, List.singleton_append]
    simp [← ih1, ih2]

end Seq

/-! ## Theorems -/

section Claims
variable {σ : Sig}

/-- Claim C3: for every request handled by the function that `Middleware` returns,
`tracer.Start` is called exactly once and `End` is called exactly once, on the
span that `Start` returned and as the last call, whatever the downstream
handler does (return or panic); and `n` sequential requests on one middleware
instance give exactly `n` ended spans, which are the spans started for the
requests, in request order. -/
theorem C3_one_span_started_and_ended (env : Env σ) (service : String)
    (opts : List (ConfigOption σ)) (next : Handler σ) (w : σ.World) (heap : Heap σ)
    (res : ResponseRecorder) (req : Nat) (r : Request σ.Context) (h : heap[req]? = some r) :
    (∃ span : σ.Span,
      ((Middleware env service opts).wrap next w heap res req).log.filterMap Event.started
        = [span] ∧
      ((Middleware env service opts).wrap next w heap res req).log.filterMap Event.ended
        = [span] ∧
      ((Middleware env service opts).wrap next w heap res req).log.getLast?
        = some (Event.spanEnd span)) ∧
    ∀ (w0 : σ.World) (heap0 : Heap σ) (reqs : List (Request σ.Context)),
      (serveAll ((Middleware env service opts).wrap next) w0 heap0 reqs).2.2.filterMap
          Event.ended =
        (serveAll ((Middleware env service opts).wrap next) w0 heap0 reqs).2.2.filterMap
          Event.started ∧
      ((serveAll ((Middleware env service opts).wrap next) w0 heap0 reqs).2.2.filterMap
          Event.ended).length = reqs.length ∧
      (serveAll ((Middleware env service opts).wrap next) w0 heap0 reqs).2.2.filterMap
          Event.startName = reqs.map spanNameOf := by
  constructor
  · obtain ⟨span, hs, he, hl, -, -⟩ := fn_spans env service (newConfig env opts)
      (env.Tracer (newConfig env opts).TracerProvider instrumentationName env.SemVersion)
      next w heap res req r h
    exact ⟨span, hs, he, hl⟩
  · intro w0 heap0 reqs
    exact serveAll_spans env service (newConfig env opts)
      (env.Tracer (newConfig env opts).TracerProvider instrumentationName env.SemVersion)
      next reqs w0 heap0

/-- Claim C4: after the handler that `Middleware` returns has run, whether it
returned or panicked, the context of the request object the caller passed in
is the context it had on entry; the copy that carries the derived context and
is handed to the downstream handler lives at another address. -/
theorem C4_caller_request_context_kept (env : Env σ) (service : String)
    (opts : List (ConfigOption σ)) (next : Handler σ) (w : σ.World) (heap : Heap σ)
    (res : ResponseRecorder) (req : Nat) (r : Request σ.Context) (h : heap[req]? = some r) :
    (((Middleware env service opts).wrap next w heap res req).heap[req]?).map Request.Context
        = some r.Context ∧
    ∀ (q : Nat) (x : Request σ.Context) (res1 : ResponseRecorder) (x1 : Request σ.Context)
      (o : Outcome σ.PanicValue),
      Event.serveHTTP q x res1 x1 o ∈ ((Middleware env service opts).wrap next w heap res req).log
        → q ≠ req := by
  have hlt : req < heap.length := by
    rcases Nat.lt_or_ge req heap.length with hlt | hge
    · exact hlt
    · rw [List.getElem?_eq_none hge] at h; cases h
  have hkeep := fn_heap env service (newConfig env opts)
      (env.Tracer (newConfig env opts).TracerProvider instrumentationName env.SemVersion)
      next w heap res req r h req hlt
  refine ⟨?_, ?_⟩
  · show ((fn _ _ _ _ _ _ _ _ _).heap[req]?).map Request.Context = _
    rw [hkeep, h]; rfl
  · intro q x res1 x1 o hmem
    obtain ⟨ctx, w1, ctx1, span, served, -, -, -, hrun⟩ := fn_run env service (newConfig env opts)
      (env.Tracer (newConfig env opts).TracerProvider instrumentationName env.SemVersion)
      next w heap res req r h
    have hmem2 : Event.serveHTTP q x res1 x1 o ∈
        (fn env service (newConfig env opts)
          (env.Tracer (newConfig env opts).TracerProvider instrumentationName env.SemVersion)
          next w heap res req).log := hmem
    rw [hrun] at hmem2
    rcases afterNext_calls env span served with hmid | ⟨status, hmid⟩ <;>
      simp [hmid] at hmem2 <;> omega

end Claims

section Claims2
variable {σ : Sig}

/-- Claim C5: the name passed to `tracer.Start` is the request's `RequestURI` when
that is not empty, and otherwise `"HTTP " ++ Method ++ " route not found"`; it
is never the empty string; a request for `/user/123` gives the name
`"/user/123"`. -/
theorem C5_span_name (env : Env σ) (service : String)
    (opts : List (ConfigOption σ)) (next : Handler σ) (w : σ.World) (heap : Heap σ)
    (res : ResponseRecorder) (req : Nat) (r : Request σ.Context) (h : heap[req]? = some r) :
    ((Middleware env service opts).wrap next w heap res req).log.filterMap Event.startName
      = [if r.RequestURI ≠ "" then r.RequestURI
          else "HTTP " ++ r.Method ++ " route not found"] ∧
    (∀ name ∈ ((Middleware env service opts).wrap next w heap res req).log.filterMap
      Event.startName, name ≠ "") ∧
    (r.RequestURI = "/user/123" →
      ((Middleware env service opts).wrap next w heap res req).log.filterMap Event.startName
        = ["/user/123"]) := by
  obtain ⟨span, -, -, -, hn, -⟩ := fn_spans env service (newConfig env opts)
    (env.Tracer (newConfig env opts).TracerProvider instrumentationName env.SemVersion)
    next w heap res req r h
  have hname : ((Middleware env service opts).wrap next w heap res req).log.filterMap
      Event.startName = [spanNameOf r] := hn
  rw [hname]
  refine ⟨?_, ?_, ?_⟩
  · unfold spanNameOf
    by_cases hu : r.RequestURI = "" <;> simp [hu]
  · intro name hmem
    rw [List.mem_singleton] at hmem
    subst hmem
    unfold spanNameOf
    by_cases hu : r.RequestURI = ""
    · simp only [hu, if_true]
      intro hempty
      have hd := congrArg String.data hempty
      simp [String.data_append] at hd
    · simp [hu]
  · intro hu
    simp [spanNameOf, hu]

/-- Claim C6: `newConfig` returns the payload of the last `WithTracerProvider` option
as the tracer provider, or the global one when there is none, and the payload
of the last `WithPropagators` option as the propagator, or the global one when
there is none; an option for one field leaves the other field as it was. -/
theorem C6_newConfig_last_option_wins (env : Env σ) (opts : List (ConfigOption σ)) :
    (newConfig env opts).TracerProvider =
      ((opts.filterMap ConfigOption.tracerProvider?).getLast?).getD env.globalTracerProvider ∧
    (newConfig env opts).Propagators =
      ((opts.filterMap ConfigOption.propagators?).getLast?).getD env.globalTextMapPropagator ∧
    (∀ (c : config σ) (tp : σ.TracerProvider),
      ((WithTracerProvider tp).Apply c).Propagators = c.Propagators ∧
      ((WithTracerProvider tp).Apply c).TracerProvider = tp) ∧
    (∀ (c : config σ) (p : σ.TextMapPropagator),
      ((WithPropagators p).Apply c).TracerProvider = c.TracerProvider ∧
      ((WithPropagators p).Apply c).Propagators = p) := by
  refine ⟨?_, ?_, fun c tp => ⟨rfl, rfl⟩, fun c p => ⟨rfl, rfl⟩⟩
  · induction opts using List.reverseRecOn with
    | nil => rfl
    | append_singleton l o ih =>
      rw [newConfig_concat, List.filterMap_append]
      cases o with
      | propagatorsOption p =>
        simpa [ConfigOption.Apply, ConfigOption.tracerProvider?] using ih
      | tracerProviderOption tp =>
        simp [ConfigOption.Apply, ConfigOption.tracerProvider?, List.getLast?_append]
  · induction opts using List.reverseRecOn with
    | nil => rfl
    | append_singleton l o ih =>
      rw [newConfig_concat, List.filterMap_append]
      cases o with
      | propagatorsOption p =>
        simp [ConfigOption.Apply, ConfigOption.propagators?, List.getLast?_append]
      | tracerProviderOption tp =>
        simpa [ConfigOption.Apply, ConfigOption.propagators?] using ih

end Claims2

section Claims3
variable {σ : Sig}

/-- The calls of one run up to the call of the downstream handler. -/
theorem fn_calls (env : Env σ) (service : String) (cfg : config σ) (tracer : σ.Tracer)
    (next : Handler σ) (w : σ.World) (heap : Heap σ) (res : ResponseRecorder) (req : Nat)
    (r : Request σ.Context) (h : heap[req]? = some r) :
    ∃ (served : Served σ) (rest : List (Event σ)),
      (fn env service cfg tracer next w heap res req).log =
        Event.extract cfg.Propagators r.Context r.Header
            (env.Extract cfg.Propagators r.Context r.Header) ::
          Event.start tracer (env.Extract cfg.Propagators r.Context r.Header) (spanNameOf r)
            (spanOptions env service r)
            (env.Start tracer w (env.Extract cfg.Propagators r.Context r.Header) (spanNameOf r)
              (spanOptions env service r)).2.1
            (env.Start tracer w (env.Extract cfg.Propagators r.Context r.Header) (spanNameOf r)
              (spanOptions env service r)).2.2 ::
          Event.serveHTTP heap.length
            (r.WithContext (env.Start tracer w (env.Extract cfg.Propagators r.Context r.Header)
              (spanNameOf r) (spanOptions env service r)).2.1)
            served.res served.req served.outcome :: rest ∧
      rest.filterMap Event.servedRequest = [] ∧
      rest.filterMap Event.startContexts = [] ∧
      rest.filterMap Event.extracted = [] ∧
      rest.all (fun e => !e.isTracer) = true ∧
      (fn env service cfg tracer next w heap res req).outcome =
        (afterNext env (env.Start tracer w (env.Extract cfg.Propagators r.Context r.Header)
          (spanNameOf r) (spanOptions env service r)).2.2 served).2.2 ∧
      rest = (afterNext env (env.Start tracer w (env.Extract cfg.Propagators r.Context r.Header)
          (spanNameOf r) (spanOptions env service r)).2.2 served).2.1 ++
        [Event.spanEnd (env.Start tracer w (env.Extract cfg.Propagators r.Context r.Header)
          (spanNameOf r) (spanOptions env service r)).2.2] ∧
      rest.filterMap Event.started = [] := by
  obtain ⟨ctx, w1, ctx1, span, served, hctx, hst, -, hrun⟩ :=
    fn_run env service cfg tracer next w heap res req r h
  subst hctx
  rw [hrun, hst]
  refine ⟨served, (afterNext env span served).2.1 ++ [Event.spanEnd span], ?_⟩
  rcases afterNext_calls env span served with hmid | ⟨status, hmid⟩ <;>
    simp [hmid, Event.servedRequest, Event.startContexts, Event.extracted, Event.isTracer,
      Event.started]

/-- Claim C7: the context passed to `tracer.Start` is `Propagators.Extract(savedCtx,
req.Header)` for the configured propagator, and the downstream handler is
called, once, with a request whose context is the context that this
`tracer.Start` call returned. For a tracer that, as the `tracetest` tracer
does, puts the span it starts in the context it returns and makes it a child
of the span its context already holds, or of the remote span context when the
context holds no span, the span the downstream handler finds in its request
context is the started one, and when the extracted context holds no span it
has the trace ID of the extracted parent and the parent's span ID as its parent
span ID. -/
theorem C7_context_flow (env : Env σ) (service : String)
    (opts : List (ConfigOption σ)) (next : Handler σ) (w : σ.World) (heap : Heap σ)
    (res : ResponseRecorder) (req : Nat) (r : Request σ.Context) (h : heap[req]? = some r) :
    ∃ (ctx1 : σ.Context) (span : σ.Span) (x : Request σ.Context),
      ((Middleware env service opts).wrap next w heap res req).log.filterMap Event.extracted
        = [((newConfig env opts).Propagators, r.Context, r.Header,
            env.Extract (newConfig env opts).Propagators r.Context r.Header)] ∧
      ((Middleware env service opts).wrap next w heap res req).log.filterMap Event.startContexts
        = [(env.Extract (newConfig env opts).Propagators r.Context r.Header, ctx1, span)] ∧
      (∃ (name : String) (o : List (SpanOption σ.KeyValue)),
        (env.Start
          (env.Tracer (newConfig env opts).TracerProvider instrumentationName env.SemVersion) w
          (env.Extract (newConfig env opts).Propagators r.Context r.Header) name o).2
          = (ctx1, span)) ∧
      ((Middleware env service opts).wrap next w heap res req).log.filterMap Event.servedRequest
        = [x] ∧
      x.Context = ctx1 ∧
      ∀ (T S : Type) (SpanFromContext : σ.Context → Option σ.Span)
        (RemoteSpanContext : σ.Context → Option (T × S))
        (TraceID : σ.Span → T) (SpanID ParentSpanID : σ.Span → S),
        (∀ t w0 c name o,
          SpanFromContext (env.Start t w0 c name o).2.1 = some (env.Start t w0 c name o).2.2 ∧
          (∀ s, SpanFromContext c = some s →
            TraceID (env.Start t w0 c name o).2.2 = TraceID s ∧
            ParentSpanID (env.Start t w0 c name o).2.2 = SpanID s) ∧
          (SpanFromContext c = none → ∀ parent, RemoteSpanContext c = some parent →
            TraceID (env.Start t w0 c name o).2.2 = parent.1 ∧
            ParentSpanID (env.Start t w0 c name o).2.2 = parent.2)) →
        SpanFromContext x.Context = some span ∧
        (SpanFromContext (env.Extract (newConfig env opts).Propagators r.Context r.Header)
            = none →
          ∀ parent,
            RemoteSpanContext (env.Extract (newConfig env opts).Propagators r.Context r.Header)
              = some parent →
            TraceID span = parent.1 ∧ ParentSpanID span = parent.2) := by
  obtain ⟨served, rest, hlog, hsr, hsc, hex, -, -, -, -⟩ := fn_calls env service (newConfig env opts)
    (env.Tracer (newConfig env opts).TracerProvider instrumentationName env.SemVersion)
    next w heap res req r h
  have hlog2 : ((Middleware env service opts).wrap next w heap res req).log = _ := hlog
  refine ⟨(env.Start
      (env.Tracer (newConfig env opts).TracerProvider instrumentationName env.SemVersion) w
      (env.Extract (newConfig env opts).Propagators r.Context r.Header) (spanNameOf r)
      (spanOptions env service r)).2.1,
    (env.Start
      (env.Tracer (newConfig env opts).TracerProvider instrumentationName env.SemVersion) w
      (env.Extract (newConfig env opts).Propagators r.Context r.Header) (spanNameOf r)
      (spanOptions env service r)).2.2,
    r.WithContext (env.Start
      (env.Tracer (newConfig env opts).TracerProvider instrumentationName env.SemVersion) w
      (env.Extract (newConfig env opts).Propagators r.Context r.Header) (spanNameOf r)
      (spanOptions env service r)).2.1, ?_, ?_, ⟨_, _, rfl⟩, ?_, rfl, ?_⟩
  · rw [hlog2]; simp only [List.filterMap_cons, Event.extracted, hex]
  · rw [hlog2]; simp only [List.filterMap_cons, Event.startContexts, hsc]
  · rw [hlog2]; simp only [List.filterMap_cons, Event.servedRequest, hsr]
  · intro T S SpanFromContext RemoteSpanContext TraceID SpanID ParentSpanID hcontract
    obtain ⟨hin, -, hremote⟩ := hcontract
      (env.Tracer (newConfig env opts).TracerProvider instrumentationName env.SemVersion) w
      (env.Extract (newConfig env opts).Propagators r.Context r.Header) (spanNameOf r)
      (spanOptions env service r)
    exact ⟨hin, hremote⟩

/-- Claim C8: the span is started before the downstream handler is called, with the
attributes `NetAttributesFromHTTPRequest("tcp", req)`,
`EndUserAttributesFromHTTPRequest(req)` and
`HTTPServerAttributesFromHTTPRequest(service, "", req)` and with span kind
server: the configured service name is passed as the server name and the empty
string as the route. -/
theorem C8_span_options (env : Env σ) (service : String)
    (opts : List (ConfigOption σ)) (next : Handler σ) (w : σ.World) (heap : Heap σ)
    (res : ResponseRecorder) (req : Nat) (r : Request σ.Context) (h : heap[req]? = some r) :
    ∃ (e : Event σ) (t : σ.Tracer) (ctx : σ.Context) (name : String) (ctx1 : σ.Context)
      (span : σ.Span) (q : Nat) (x : Request σ.Context) (res1 : ResponseRecorder)
      (x1 : Request σ.Context) (o : Outcome σ.PanicValue) (rest : List (Event σ)),
      ((Middleware env service opts).wrap next w heap res req).log =
        e :: Event.start t ctx name
          [ SpanOption.WithAttributes (env.NetAttributesFromHTTPRequest "tcp" r),
            SpanOption.WithAttributes (env.EndUserAttributesFromHTTPRequest r),
            SpanOption.WithAttributes (env.HTTPServerAttributesFromHTTPRequest service "" r),
            SpanOption.WithSpanKind SpanKind.SpanKindServer ] ctx1 span ::
          Event.serveHTTP q x res1 x1 o :: rest ∧
      e.started = none ∧ e.servedRequest = none ∧
      rest.filterMap Event.started = [] ∧ rest.filterMap Event.servedRequest = [] := by
  obtain ⟨served, rest, hlog, hsr, -, -, -, -, -, hstd⟩ := fn_calls env service
    (newConfig env opts)
    (env.Tracer (newConfig env opts).TracerProvider instrumentationName env.SemVersion)
    next w heap res req r h
  exact ⟨_, _, _, _, _, _, _, _, _, _, _, rest, hlog, rfl, rfl, hstd, hsr⟩

/-- Claim C9: `Middleware` obtains one tracer while it is constructed, from the
tracer provider of the configuration that `newConfig` resolves from the
options, under the name `instrumentationName` and with the contrib version;
a request makes no further `Tracer` call, and the span of every request of
every handler built from that call is started by this tracer, so that for a
provider whose tracers bear the name they were asked under, the tracer of the
span is named `instrumentationName`. -/
theorem C9_one_tracer (env : Env σ) (service : String)
    (opts : List (ConfigOption σ)) (next : Handler σ) (w : σ.World) (heap : Heap σ)
    (res : ResponseRecorder) (req : Nat) (r : Request σ.Context) (h : heap[req]? = some r) :
    (Middleware env service opts).calls =
      [Event.tracer (newConfig env opts).TracerProvider instrumentationName env.SemVersion
        (env.Tracer (newConfig env opts).TracerProvider instrumentationName env.SemVersion)] ∧
    ((Middleware env service opts).wrap next w heap res req).log.filterMap Event.startTracer =
      [env.Tracer (newConfig env opts).TracerProvider instrumentationName env.SemVersion] ∧
    ((Middleware env service opts).wrap next w heap res req).log.all
      (fun e => !e.isTracer) = true ∧
    ∀ (Name : σ.Tracer → String), (∀ tp name version, Name (env.Tracer tp name version) = name) →
      ∀ t ∈ ((Middleware env service opts).wrap next w heap res req).log.filterMap
        Event.startTracer, Name t = instrumentationName := by
  obtain ⟨span, -, -, -, -, ht⟩ := fn_spans env service (newConfig env opts)
    (env.Tracer (newConfig env opts).TracerProvider instrumentationName env.SemVersion)
    next w heap res req r h
  obtain ⟨served, rest, hlog, -, -, -, hnt, -, -, -⟩ := fn_calls env service (newConfig env opts)
    (env.Tracer (newConfig env opts).TracerProvider instrumentationName env.SemVersion)
    next w heap res req r h
  have ht2 : ((Middleware env service opts).wrap next w heap res req).log.filterMap
      Event.startTracer = _ := ht
  have hlog2 : ((Middleware env service opts).wrap next w heap res req).log = _ := hlog
  refine ⟨rfl, ht2, ?_, ?_⟩
  · rw [hlog2]
    simp only [List.all_cons, hnt]
    rfl
  · intro Name hname t hmem
    rw [ht2, List.mem_singleton] at hmem
    rw [hmem, hname]

/-- Claim C10: when the downstream handler panics, the handler that `Middleware`
returns ends the span, as its last call and without setting attributes or a
status, and ends in the same panic. -/
theorem C10_panic_propagates (env : Env σ) (service : String)
    (opts : List (ConfigOption σ)) (next : Handler σ) (w : σ.World) (heap : Heap σ)
    (res : ResponseRecorder) (req : Nat) (r : Request σ.Context) (v : Panic σ.PanicValue)
    (h : heap[req]? = some r)
    (hpanic : ((Middleware env service opts).wrap next w heap res req).log.filterMap
      Event.servedOutcome = [Outcome.panicked v]) :
    ((Middleware env service opts).wrap next w heap res req).outcome = Outcome.panicked v ∧
    ∃ span : σ.Span,
      ((Middleware env service opts).wrap next w heap res req).log.filterMap Event.started
        = [span] ∧
      ((Middleware env service opts).wrap next w heap res req).log.filterMap Event.ended
        = [span] ∧
      ((Middleware env service opts).wrap next w heap res req).log.getLast?
        = some (Event.spanEnd span) ∧
      ((Middleware env service opts).wrap next w heap res req).log.any Event.isSet = false := by
  obtain ⟨served, rest, hlog, -, -, -, -, hout, hrest, -⟩ := fn_calls env service
    (newConfig env opts)
    (env.Tracer (newConfig env opts).TracerProvider instrumentationName env.SemVersion)
    next w heap res req r h
  have hlog2 : ((Middleware env service opts).wrap next w heap res req).log = _ := hlog
  have hout2 : ((Middleware env service opts).wrap next w heap res req).outcome = _ := hout
  have hserved : served.outcome = Outcome.panicked v := by
    rw [hlog2] at hpanic
    simp only [List.filterMap_cons, Event.servedOutcome] at hpanic
    have := List.head_eq_of_cons_eq hpanic
    exact this
  rw [afterNext_panicked env _ served v hserved] at hout2 hrest
  refine ⟨hout2, (env.Start
      (env.Tracer (newConfig env opts).TracerProvider instrumentationName env.SemVersion) w
      (env.Extract (newConfig env opts).Propagators r.Context r.Header) (spanNameOf r)
      (spanOptions env service r)).2.2, ?_, ?_, ?_, ?_⟩ <;> rw [hlog2, hrest] <;>
    simp [Event.started, Event.ended, Event.isSet]

end Claims3

/-! ## The status read after the downstream call -/

section Status
variable {σ : Sig}

/-- When the downstream handler returns and the request it was handed has no
`Response`, as is the case for every server request the handler leaves alone,
the run ends in a nil pointer dereference and sets neither attributes nor
status. -/
theorem fn_nil_response (env : Env σ) (service : String) (cfg : config σ) (tracer : σ.Tracer)
    (next : Handler σ) (w : σ.World) (heap : Heap σ) (res : ResponseRecorder) (req : Nat)
    (r : Request σ.Context) (h : heap[req]? = some r)
    (hret : ∀ w1 res1 x, (next w1 res1 x).outcome = Outcome.returned)
    (hnil : ∀ w1 res1 x, x.Response = none → (next w1 res1 x).req.Response = none)
    (hr : r.Response = none) :
    (fn env service cfg tracer next w heap res req).outcome =
      Outcome.panicked Panic.nilPointerDereference ∧
    (fn env service cfg tracer next w heap res req).log.any Event.isSet = false := by
  obtain ⟨ctx, w1, ctx1, span, served, -, -, hserved, hrun⟩ :=
    fn_run env service cfg tracer next w heap res req r h
  have hout : served.outcome = Outcome.returned := by rw [hserved]; exact hret _ _ _
  have hresp : served.req.Response = none := by
    rw [hserved]; exact hnil _ _ _ hr
  have hafter : afterNext env span served =
      (served.world, [], Outcome.panicked Panic.nilPointerDereference) := by
    unfold afterNext
    rw [hout]
    simp only [hresp]
  rw [hrun, hafter]
  exact ⟨rfl, by simp [Event.isSet]⟩

end Status

/-- Claim C1, evaluated on the requests of the tests: for `GET /user/123` built by
`httptest.NewRequest` and a handler that writes status 200 and returns, the
recorder holds 200, yet the run makes four calls (extract, start, serve, end),
none of them `SetAttributes` or `SetStatus`, and ends in a nil pointer
dereference; and for a request that carries a `Response` with status line
`"404 Not Found"`, the attributes set are those of status code 0, the value
`strconv.Atoi` gives for the status line, not those of the 200 written. -/
theorem C1_status_read_from_request_response :
    ((Middleware recEnv "foobar" [WithTracerProvider 7]).wrap writeOK 0
      [NewRequest "GET" "/user/123"] NewRecorder 0).res.Code = 200 ∧
    ((Middleware recEnv "foobar" [WithTracerProvider 7]).wrap writeOK 0
      [NewRequest "GET" "/user/123"] NewRecorder 0).log.filterMap Event.servedOutcome
        = [Outcome.returned] ∧
    ((Middleware recEnv "foobar" [WithTracerProvider 7]).wrap writeOK 0
      [NewRequest "GET" "/user/123"] NewRecorder 0).log.length = 4 ∧
    ((Middleware recEnv "foobar" [WithTracerProvider 7]).wrap writeOK 0
      [NewRequest "GET" "/user/123"] NewRecorder 0).log.any Event.isSet = false ∧
    ((Middleware recEnv "foobar" [WithTracerProvider 7]).wrap writeOK 0
      [NewRequest "GET" "/user/123"] NewRecorder 0).outcome
        = Outcome.panicked Panic.nilPointerDereference ∧
    ((Middleware recEnv "foobar" [WithTracerProvider 7]).wrap writeOK 0
      [requestWithResponse] NewRecorder 0).res.Code = 200 ∧
    ((Middleware recEnv "foobar" [WithTracerProvider 7]).wrap writeOK 0
      [requestWithResponse] NewRecorder 0).log.filterMap Event.attributes
        = [[("http.status_code", RecValue.INT64 0)]] :=
  ⟨rfl, rfl, rfl, rfl, rfl, rfl, rfl⟩

/-- Claim C2, evaluated on the request of `TestChildSpanFromGlobalTracer`: with no
option given, for `GET /user/123` built by `httptest.NewRequest`, whose
`Response` is nil, and a handler that writes status 200 and returns normally,
the handler that `Middleware` returns does not return: it panics with a nil
pointer dereference. -/
theorem C2_nil_response_dereferenced :
    (NewRequest "GET" "/user/123").Response = none ∧
    ((Middleware recEnv "foobar" []).wrap writeOK 0
      [NewRequest "GET" "/user/123"] NewRecorder 0).log.filterMap Event.servedOutcome
        = [Outcome.returned] ∧
    ((Middleware recEnv "foobar" []).wrap writeOK 0
      [NewRequest "GET" "/user/123"] NewRecorder 0).outcome
        = Outcome.panicked Panic.nilPointerDereference :=
  ⟨rfl, rfl, rfl⟩

/-! ## The theorems at concrete requests -/

/-- The recording tracer puts the span it starts in the context it returns and
makes it a child of the span the context holds, or of the remote span context
when the context holds no span. -/
theorem recStart_child (t : RecTracer) (w0 : Nat) (c : RecContext) (name : String)
    (o : List (SpanOption (String × RecValue))) :
    (recStart t w0 c name o).2.1.current = some (recStart t w0 c name o).2.2 ∧
    (∀ s : RecSpan, c.current = some s →
      (recStart t w0 c name o).2.2.TraceID = s.TraceID ∧
      (recStart t w0 c name o).2.2.ParentSpanID = s.SpanID) ∧
    (c.current = none → ∀ parent : Nat × Nat, c.remote = some parent →
      (recStart t w0 c name o).2.2.TraceID = parent.1 ∧
      (recStart t w0 c name o).2.2.ParentSpanID = parent.2) := by
  refine ⟨rfl, ?_, ?_⟩
  · intro s hs
    simp [recStart, hs]
  · intro hc parent hp
    simp [recStart, hc, hp]

/-- The trace-ID consequence of claim C7 fails for a request whose context
already holds a span: the request carries the caller's span context (trace ID
11, span ID 22) in its header and the propagator extracts it into the context
passed to `tracer.Start`, yet the span the downstream handler finds in its
request context has trace ID 5 and parent span ID 6, those of the span the
context held, not 11 and 22. -/
theorem C7_parent_is_the_current_span :
    (recEnv.Extract (newConfig recEnv []).Propagators requestWithSpan.Context
      requestWithSpan.Header).remote = some (11, 22) ∧
    ((((Middleware recEnv "foobar" []).wrap writeOK 0 [requestWithSpan] NewRecorder
      0).log.filterMap Event.startContexts).map (fun c => c.1.remote)) = [some (11, 22)] ∧
    (((Middleware recEnv "foobar" []).wrap writeOK 0 [requestWithSpan] NewRecorder
      0).log.filterMap Event.servedRequest).map
        (fun x => x.Context.current.map (fun s => (s.TraceID, s.ParentSpanID)))
      = [some (5, 6)] ∧
    ¬ ((((Middleware recEnv "foobar" []).wrap writeOK 0 [requestWithSpan] NewRecorder
      0).log.filterMap Event.servedRequest).map
        (fun x => x.Context.current.map (fun s => (s.TraceID, s.ParentSpanID)))
      = [some (11, 22)]) := by
  refine ⟨rfl, rfl, rfl, ?_⟩
  intro hclaim
  have hfalse : ([some (5, 6)] : List (Option (Nat × Nat))) = [some (11, 22)] := hclaim
  simp at hfalse

/-- The span count at the two requests of `TestChildSpanNames`. -/
theorem C3_one_span_started_and_ended_witness :
    [NewRequest "GET" "/user/123"][0]? = some (NewRequest "GET" "/user/123") ∧
    ((serveAll ((Middleware recEnv "foobar" [WithTracerProvider 7]).wrap writeOK) 0 []
      [NewRequest "GET" "/user/123", NewRequest "GET" "/book/foo"]).2.2.filterMap
        Event.ended).length = 2 ∧
    (serveAll ((Middleware recEnv "foobar" [WithTracerProvider 7]).wrap writeOK) 0 []
      [NewRequest "GET" "/user/123", NewRequest "GET" "/book/foo"]).2.2.filterMap
        Event.startName = ["/user/123", "/book/foo"] :=
  ⟨rfl,
    ((C3_one_span_started_and_ended recEnv "foobar" [WithTracerProvider 7] writeOK 0
      [NewRequest "GET" "/user/123"] NewRecorder 0 (NewRequest "GET" "/user/123") rfl).2 0 []
      [NewRequest "GET" "/user/123", NewRequest "GET" "/book/foo"]).2⟩

/-- The caller's request after a run on a request that carries a caller's span context. -/
theorem C4_caller_request_context_kept_witness :
    [requestWithParent][0]? = some requestWithParent ∧
    (((Middleware recEnv "foobar" []).wrap writeOK 0 [requestWithParent] NewRecorder 0).heap[0]?).map
      Request.Context = some { remote := none, current := none } :=
  ⟨rfl, (C4_caller_request_context_kept recEnv "foobar" [] writeOK 0 [requestWithParent]
    NewRecorder 0 requestWithParent rfl).1⟩

/-- The span name for a request with an empty request URI. -/
theorem C5_span_name_witness :
    [NewRequest "GET" ""][0]? = some (NewRequest "GET" "") ∧
    ((Middleware recEnv "foobar" []).wrap writeOK 0 [NewRequest "GET" ""] NewRecorder 0).log.filterMap
      Event.startName = ["HTTP GET route not found"] :=
  ⟨rfl, (C5_span_name recEnv "foobar" [] writeOK 0 [NewRequest "GET" ""] NewRecorder 0
    (NewRequest "GET" "") rfl).1⟩

/-- The context flow at a request that carries a caller's span context: the span that the
downstream handler finds has the caller's trace ID and the caller's span ID as
its parent. -/
theorem C7_context_flow_witness :
    [requestWithParent][0]? = some requestWithParent ∧
    (((Middleware recEnv "foobar" []).wrap writeOK 0 [requestWithParent] NewRecorder
      0).log.filterMap Event.servedRequest).map
        (fun x => x.Context.current.map (fun s => (s.TraceID, s.ParentSpanID)))
      = [some (11, 22)] := by
  refine ⟨rfl, ?_⟩
  obtain ⟨ctx1, span, x, -, -, -, hsr, -, hence⟩ := C7_context_flow recEnv "foobar" [] writeOK 0
    [requestWithParent] NewRecorder 0 requestWithParent rfl
  obtain ⟨hspan, hparent⟩ := hence Nat Nat (fun c => c.current) (fun c => c.remote)
    RecSpan.TraceID RecSpan.SpanID RecSpan.ParentSpanID
    (fun t w0 c name o => recStart_child t w0 c name o)
  obtain ⟨htrace, hpar⟩ := hparent rfl (11, 22) rfl
  rw [hsr]
  have hcur : x.Context.current = some span := hspan
  simp [hcur, htrace, hpar]

/-- The span options at the first request of `TestChildSpanNames`. -/
theorem C8_span_options_witness :
    [NewRequest "GET" "/user/123"][0]? = some (NewRequest "GET" "/user/123") ∧
    ∃ (e : Event recSig) (t : RecTracer) (ctx : RecContext) (name : String) (ctx1 : RecContext)
      (span : RecSpan) (q : Nat) (x : Request RecContext) (res1 : ResponseRecorder)
      (x1 : Request RecContext) (o : Outcome String) (rest : List (Event recSig)),
      ((Middleware recEnv "foobar" [WithTracerProvider 7]).wrap writeOK 0
        [NewRequest "GET" "/user/123"] NewRecorder 0).log =
        e :: Event.start t ctx name
          [ SpanOption.WithAttributes
              [("net.transport", RecValue.STRING "tcp"),
                ("net.host.name", RecValue.STRING "example.com")],
            SpanOption.WithAttributes [],
            SpanOption.WithAttributes
              [("http.method", RecValue.STRING "GET"),
                ("http.target", RecValue.STRING "/user/123"),
                ("http.server_name", RecValue.STRING "foobar"),
                ("http.route", RecValue.STRING "")],
            SpanOption.WithSpanKind SpanKind.SpanKindServer ] ctx1 span ::
          Event.serveHTTP q x res1 x1 o :: rest ∧
      e.started = none ∧ e.servedRequest = none ∧
      rest.filterMap Event.started = [] ∧ rest.filterMap Event.servedRequest = [] :=
  ⟨rfl, C8_span_options recEnv "foobar" [WithTracerProvider 7] writeOK 0
    [NewRequest "GET" "/user/123"] NewRecorder 0 (NewRequest "GET" "/user/123") rfl⟩

/-- The tracer of the span at the request of `TestChildSpanFromGlobalTracer`. -/
theorem C9_one_tracer_witness :
    [NewRequest "GET" "/user/123"][0]? = some (NewRequest "GET" "/user/123") ∧
    (((Middleware recEnv "foobar" []).wrap writeOK 0 [NewRequest "GET" "/user/123"] NewRecorder
      0).log.filterMap Event.startTracer).map RecTracer.Name = [instrumentationName] :=
  ⟨rfl, congrArg (List.map RecTracer.Name)
    (C9_one_tracer recEnv "foobar" [] writeOK 0 [NewRequest "GET" "/user/123"] NewRecorder 0
      (NewRequest "GET" "/user/123") rfl).2.1⟩

/-- The outcome of a run whose downstream handler panics with `"boom"`. -/
theorem C10_panic_propagates_witness :
    [NewRequest "GET" "/user/123"][0]? = some (NewRequest "GET" "/user/123") ∧
    ((Middleware recEnv "foobar" []).wrap (panicWith "boom") 0 [NewRequest "GET" "/user/123"]
      NewRecorder 0).log.filterMap Event.servedOutcome = [Outcome.panicked (Panic.value "boom")] ∧
    ((Middleware recEnv "foobar" []).wrap (panicWith "boom") 0 [NewRequest "GET" "/user/123"]
      NewRecorder 0).outcome = Outcome.panicked (Panic.value "boom") :=
  ⟨rfl, rfl, (C10_panic_propagates recEnv "foobar" [] (panicWith "boom") 0
    [NewRequest "GET" "/user/123"] NewRecorder 0 (NewRequest "GET" "/user/123")
    (Panic.value "boom") rfl rfl).1⟩

end Otelchi
